import Mathlib

/-!
Shallow embedding of the interactive prototype in `main.py` of the
BigBarber repository: the `Spark` particle model, the `PrecisionCutMode`
and `BrawlMode` minigames, and the `Game` mode selector, together with
proofs of the testable properties stated for them.

Modelling conventions:
* Python floats are embedded as `ℚ` (all arithmetic in the game loop is
  exact ring arithmetic, `max`/`min` clamps and comparisons).
* Calls to `random.uniform` inside a spark-spawning loop are modelled by a
  random oracle `rng : ℕ → SparkRand` supplying, for the i-th spark of a
  burst, the velocity components `cos(ang)*speed`, `sin(ang)*speed` and
  the lifetime drawn by the source.  The outcome of the
  `random.random() < 0.015` dodge check in `BrawlMode.update` is modelled
  by an explicit boolean `dodge`.
* The in-place `for sp in list(self.sparks): ...; if sp.life <= 0:
  self.sparks.remove(sp)` loops iterate over a copy, advance every element
  once, and remove each expired element exactly once (element equality is
  value equality from `@dataclass`, and value-equal elements are
  indistinguishable), so their net effect on the list is
  map-advance-then-filter-live; they are embedded as `pruneAdvance`.
-/

/- The Batteries definitions of rational arithmetic are `@[irreducible]`,
which blocks `decide` on concrete states; the kernel itself reduces them
fine, so we restore the default reducibility for this development. -/
attribute [local semireducible] Rat.add Rat.sub Rat.mul Rat.inv Rat.ofScientific

namespace BigBarber

/-- Screen width, `WIDTH = 1280` in `main.py`. -/
def WIDTH : ℚ := 1280

/-- Screen height, `HEIGHT = 720` in `main.py`. -/
def HEIGHT : ℚ := 720

/-- The `Spark` dataclass: position, velocity and remaining lifetime.
`BrawlMode`'s particles (`[x, y, dx, dy, life]` lists) have the same five
fields and are embedded with the same structure. -/
structure Spark where
  x : ℚ
  y : ℚ
  dx : ℚ
  dy : ℚ
  life : ℚ
deriving DecidableEq, Repr

/-- One tick of a spark inside a mode update loop: `Spark.update` (position
integration and `life -= dt`) followed by the gravity line `sp.dy += 300*dt`
that both mode loops apply right after it.  The position update uses the
old `dy`, as in the source. -/
def Spark.advance (sp : Spark) (dt : ℚ) : Spark :=
  { x := sp.x + sp.dx * dt
    y := sp.y + sp.dy * dt
    dx := sp.dx
    dy := sp.dy + 300 * dt
    life := sp.life - dt }

/-- Net effect of the advance-and-prune loops (`PrecisionCutMode.update`
lines 121-125, `BrawlMode.update` lines 284-290): every spark advanced by
`dt`, expired sparks (`life <= 0`) removed. -/
def pruneAdvance (l : List Spark) (dt : ℚ) : List Spark :=
  (l.map (fun sp => sp.advance dt)).filter (fun sp => 0 < sp.life)

/-- Random draws consumed when spawning one spark: the two velocity
components `cos(ang)*speed` and `sin(ang)*speed` and the lifetime. -/
structure SparkRand where
  dx : ℚ
  dy : ℚ
  life : ℚ

/-! ### PrecisionCutMode -/

/-- `self.time_limit = 12.0`, set in `PrecisionCutMode.__init__` and never
written afterwards. -/
def time_limit : ℚ := 12

/-- `self.head_center[0] = WIDTH * 0.6`. -/
def head_center_x : ℚ := WIDTH * 0.6

/-- `self.head_center[1] = HEIGHT * 0.45`. -/
def head_center_y : ℚ := HEIGHT * 0.45

/-- `self.fade_x = self.head_center[0] - 70`. -/
def fade_x : ℚ := head_center_x - 70

/-- `self.perfection_window = 8.0`. -/
def perfection_window : ℚ := 8

/-- The target row `self.head_center[1] + 10` against which the clipper's
vertical error is measured in `PrecisionCutMode.update`. -/
def targetRow : ℚ := head_center_y + 10

/-- Mutable state of `PrecisionCutMode`.  The constants `time_limit`,
`head_center`, `head_radius`, `fade_x` and `perfection_window` are set in
`__init__` and never reassigned, so they are Lean constants above
(`head_radius` is only used for drawing and is omitted). -/
structure PrecisionCutMode where
  time_left : ℚ
  combo : ℕ
  combo_timer : ℚ
  sparks : List Spark
  perfect_text_timer : ℚ
  clip_y : ℚ
deriving DecidableEq

/-- `PrecisionCutMode.__init__` field values. -/
def PrecisionCutMode.init : PrecisionCutMode :=
  { time_left := time_limit
    combo := 0
    combo_timer := 0
    sparks := []
    perfect_text_timer := 0
    clip_y := head_center_y }

/-- `PrecisionCutMode.reset`: restores timers and combo, clears sparks
(`clip_y` is not touched by `reset`). -/
def PrecisionCutMode.reset (m : PrecisionCutMode) : PrecisionCutMode :=
  { m with
    time_left := time_limit
    combo := 0
    combo_timer := 0
    sparks := []
    perfect_text_timer := 0 }

/-- The burst of 12 high-speed sparks spawned at `(fade_x, clip_y)` on a
perfect hit. -/
def perfectBurst (rng : ℕ → SparkRand) (cy : ℚ) : List Spark :=
  (List.range 12).map fun i =>
    { x := fade_x, y := cy, dx := (rng i).dx, dy := (rng i).dy, life := (rng i).life }

/-- The smaller burst of 4 sparks spawned on an imperfect (in-radius but
out-of-window) hit. -/
def imperfectBurst (rng : ℕ → SparkRand) (cy : ℚ) : List Spark :=
  (List.range 4).map fun i =>
    { x := fade_x, y := cy, dx := (rng i).dx, dy := (rng i).dy, life := (rng i).life }

/-- The press-classification block of `PrecisionCutMode.update`
(lines 98-118): when the mouse is down, the combined metric
`abs(mx - fade_x) + abs(clip_y - (head_center_y + 10))` is tested against
the coarse radius 80; inside it, the vertical error decides between the
perfect branch (combo increment, timer restarts, 12-spark burst) and the
imperfect branch (combo reset, 4-spark burst).  Outside the radius the
block does nothing. -/
def PrecisionCutMode.classifyPress (m : PrecisionCutMode) (mx : ℚ) (mouse_down : Bool)
    (rng : ℕ → SparkRand) : PrecisionCutMode :=
  if mouse_down then
    if |mx - fade_x| + |m.clip_y - targetRow| < 80 then
      if |m.clip_y - targetRow| ≤ perfection_window then
        { m with
          combo := m.combo + 1
          combo_timer := 1.2
          perfect_text_timer := 0.9
          sparks := m.sparks ++ perfectBurst rng m.clip_y }
      else
        { m with
          combo := 0
          sparks := m.sparks ++ imperfectBurst rng m.clip_y }
    else m
  else m

/-- First half of the trailing timer block of `PrecisionCutMode.update`
(lines 128-131): `combo_timer` decremented while positive, otherwise combo
reset to 0. -/
def PrecisionCutMode.comboTimerStep (m : PrecisionCutMode) (dt : ℚ) : PrecisionCutMode :=
  if 0 < m.combo_timer then { m with combo_timer := m.combo_timer - dt }
  else { m with combo := 0 }

/-- Second half of the trailing timer block (lines 132-133):
`perfect_text_timer` decremented while positive. -/
def PrecisionCutMode.textTimerStep (m : PrecisionCutMode) (dt : ℚ) : PrecisionCutMode :=
  if 0 < m.perfect_text_timer then { m with perfect_text_timer := m.perfect_text_timer - dt }
  else m

/-- The trailing timer block of `PrecisionCutMode.update` (lines 128-133). -/
def PrecisionCutMode.timersStep (m : PrecisionCutMode) (dt : ℚ) : PrecisionCutMode :=
  (m.comboTimerStep dt).textTimerStep dt

/-- The clamped clipper height computed from the mouse's vertical
coordinate at `PrecisionCutMode.update` line 95:
`max(100, min(HEIGHT - 80, my))`. -/
def clampClip (my : ℚ) : ℚ := max 100 (min (HEIGHT - 80) my)

/-- The state of `PrecisionCutMode.update` just before the spark
advance-and-prune loop: time decrement (line 91) and clipper clamp
(line 95) — two writes to disjoint fields — then the press classification
block. -/
def PrecisionCutMode.preSpark (m : PrecisionCutMode) (dt : ℚ) (mouse : ℚ × ℚ)
    (mouse_down : Bool) (rng : ℕ → SparkRand) : PrecisionCutMode :=
  PrecisionCutMode.classifyPress
    { m with time_left := max 0 (m.time_left - dt), clip_y := clampClip mouse.2 }
    mouse.1 mouse_down rng

/-- The spark advance-and-prune loop of `PrecisionCutMode.update`
(lines 121-125). -/
def PrecisionCutMode.sparkStep (m : PrecisionCutMode) (dt : ℚ) : PrecisionCutMode :=
  { m with sparks := pruneAdvance m.sparks dt }

/-- `PrecisionCutMode.update(dt, mouse_pos, mouse_down)`. -/
def PrecisionCutMode.update (m : PrecisionCutMode) (dt : ℚ) (mouse : ℚ × ℚ)
    (mouse_down : Bool) (rng : ℕ → SparkRand) : PrecisionCutMode :=
  (((m.preSpark dt mouse mouse_down rng).sparkStep dt)).timersStep dt

/-! ### BrawlMode -/

/-- The per-frame input flags passed to `BrawlMode.update` (the
`inputs` dict built in `Game.update` / `Game.handle_events`). -/
structure Inputs where
  left_move : Bool
  right_move : Bool
  super_flag : Bool
deriving DecidableEq

/-- Mutable state of `BrawlMode`.  The `left_vel`/`right_vel` fields of the
source are initialised to `[0, 0]` and never read or written again, so they
are omitted; `left_pos[1]`/`right_pos[1]` are likewise never written after
`__init__` but are read (burst anchor points), so they are kept. -/
structure BrawlMode where
  timer : ℚ
  left_hp : ℚ
  right_hp : ℚ
  super_full : Bool
  super_active : Bool
  super_timer : ℚ
  left_x : ℚ
  left_y : ℚ
  right_x : ℚ
  right_y : ℚ
  particles : List Spark
deriving DecidableEq

/-- `BrawlMode.__init__` field values. -/
def BrawlMode.init : BrawlMode :=
  { timer := 99
    left_hp := 100
    right_hp := 100
    super_full := true
    super_active := false
    super_timer := 0
    left_x := 220
    left_y := HEIGHT - 220
    right_x := WIDTH - 220
    right_y := HEIGHT - 220
    particles := [] }

/-- `BrawlMode.reset`: health to 100, timer to 99, meter full, super off,
particles cleared (positions are not touched by `reset`). -/
def BrawlMode.reset (b : BrawlMode) : BrawlMode :=
  { b with
    timer := 99
    left_hp := 100
    right_hp := 100
    super_full := true
    super_active := false
    super_timer := 0
    particles := [] }

/-- The 30-particle fist burst spawned at `(left_x + 60, left_y - 60)` when
the super move triggers. -/
def triggerBurst (rng : ℕ → SparkRand) (x y : ℚ) : List Spark :=
  (List.range 30).map fun i =>
    { x := x + 60, y := y - 60, dx := (rng i).dx, dy := (rng i).dy, life := (rng i).life }

/-- The 40-particle foam shockwave spawned at `(right_x - 40, right_y - 40)`
when the super move resolves. -/
def shockwaveBurst (rng : ℕ → SparkRand) (x y : ℚ) : List Spark :=
  (List.range 40).map fun i =>
    { x := x - 40, y := y - 40, dx := (rng i).dx, dy := (rng i).dy, life := (rng i).life }

/-- The left fighter's x position after the movement lines 250-253 of
`BrawlMode.update` (`-180*dt` when moving left, `+180*dt` when moving
right; both flags may fire in one frame). -/
def movedLeft (lx : ℚ) (dt : ℚ) (inputs : Inputs) : ℚ :=
  (if inputs.right_move then
    (if inputs.left_move then lx + (-180) * dt else lx) + 180 * dt
  else
    (if inputs.left_move then lx + (-180) * dt else lx))

/-- The clamp applied to the right fighter's x coordinate at
`BrawlMode.update` line 257. -/
def clampRight (x : ℚ) : ℚ := max (WIDTH / 2 + 60) (min (WIDTH - 120) x)

/-- Movement and clamping block of `BrawlMode.update` (lines 250-257):
left fighter moves at 180 px/s in the requested directions, then both
fighters' x coordinates are clamped to their halves of the arena. -/
def BrawlMode.moveClampStep (b : BrawlMode) (dt : ℚ) (inputs : Inputs) : BrawlMode :=
  { b with
    left_x := max 120 (min (WIDTH / 2 - 60) (movedLeft b.left_x dt inputs))
    right_x := clampRight b.right_x }

/-- Super-trigger block of `BrawlMode.update` (lines 260-268): fires only
when the super flag is set, the meter is full and no super is active. -/
def BrawlMode.triggerStep (b : BrawlMode) (inputs : Inputs)
    (rng : ℕ → SparkRand) : BrawlMode :=
  if inputs.super_flag && b.super_full && !b.super_active then
    { b with
      super_active := true
      super_timer := 0.7
      super_full := false
      particles := b.particles ++ triggerBurst rng b.left_x b.left_y }
  else b

/-- Super wind-up/resolution block of `BrawlMode.update` (lines 271-281):
while active, the wind-up countdown is decremented; at expiry the super
deactivates, damage 28 is applied to the right fighter's health floored at
0, and the shockwave burst is spawned. -/
def BrawlMode.superStep (b : BrawlMode) (dt : ℚ) (rng : ℕ → SparkRand) : BrawlMode :=
  if b.super_active then
    if b.super_timer - dt ≤ 0 then
      { b with
        super_timer := b.super_timer - dt
        super_active := false
        right_hp := max 0 (b.right_hp - 28)
        particles := b.particles ++ shockwaveBurst rng b.right_x b.right_y }
    else { b with super_timer := b.super_timer - dt }
  else b

/-- The AI dodge block of `BrawlMode.update` (lines 293-294): with the
random check `random.random() < 0.015` succeeding (`dodge = true`) while a
super is active, the right fighter is nudged by `100 * dt`, with no
re-clamp afterwards. -/
def BrawlMode.dodgeStep (b : BrawlMode) (dt : ℚ) (dodge : Bool) : BrawlMode :=
  if b.super_active && dodge then { b with right_x := b.right_x + 100 * dt }
  else b

/-- The state of `BrawlMode.update` just before the particle
advance-and-prune loop: timer decrement, movement and clamps, super
trigger, super wind-up/resolution. -/
def BrawlMode.preParticle (b : BrawlMode) (dt : ℚ) (inputs : Inputs)
    (rng1 rng2 : ℕ → SparkRand) : BrawlMode :=
  ((({ b with timer := max 0 (b.timer - dt) } : BrawlMode).moveClampStep dt
    inputs).triggerStep inputs rng1).superStep dt rng2

/-- The particle advance-and-prune loop of `BrawlMode.update`
(lines 284-290). -/
def BrawlMode.particleStep (b : BrawlMode) (dt : ℚ) : BrawlMode :=
  { b with particles := pruneAdvance b.particles dt }

/-- `BrawlMode.update(dt, inputs)`; `rng1` feeds the trigger burst, `rng2`
the shockwave burst, `dodge` is the outcome of the AI dodge random check. -/
def BrawlMode.update (b : BrawlMode) (dt : ℚ) (inputs : Inputs)
    (rng1 rng2 : ℕ → SparkRand) (dodge : Bool) : BrawlMode :=
  ((b.preParticle dt inputs rng1 rng2).particleStep dt).dodgeStep dt dodge

/-! ### Mode selector -/

/-- The three game states `STATE_MENU`, `STATE_PRECISION`, `STATE_BRAWL`. -/
inductive Mode
  | menu
  | precision
  | brawl
deriving DecidableEq

/-- The discrete key signals handled by `Game.handle_events` (arrow/AD
movement collapses to `left`/`right`; any other key is `other`). -/
inductive Key
  | leftKey
  | rightKey
  | enter
  | escape
  | space
  | other
deriving DecidableEq

/-- The `Game` object: current state, the two mode objects, and the menu
selection index (`running` and the pygame surfaces are loop plumbing and
are not part of the transition logic). -/
structure Game where
  state : Mode
  precision : PrecisionCutMode
  brawl : BrawlMode
  menu_selected : ℕ

/-- `Game.__init__`: starts in the menu with fresh mode objects. -/
def Game.init : Game :=
  { state := Mode.menu
    precision := PrecisionCutMode.init
    brawl := BrawlMode.init
    menu_selected := 0 }

/-- The `KEYDOWN` branch of `Game.handle_events` (lines 407-426): in the
menu, arrows adjust the selection and RETURN enters the selected mode
after resetting it; outside the menu, ESCAPE returns to the menu, and in
brawl mode SPACE additionally fires `brawl.update(0, {"super": True})`.
`QUIT` and `MOUSEBUTTONDOWN` events never touch `self.state` and are not
modelled.  `menu_selected - 1` is ℕ subtraction, which agrees with the
source's `max(0, ...)` clamp. -/
def Game.handleKey (g : Game) (k : Key) (rng1 rng2 : ℕ → SparkRand)
    (dodge : Bool) : Game :=
  match g.state with
  | Mode.menu =>
    match k with
    | Key.rightKey => { g with menu_selected := min 1 (g.menu_selected + 1) }
    | Key.leftKey => { g with menu_selected := g.menu_selected - 1 }
    | Key.enter =>
      if g.menu_selected = 0 then
        { g with state := Mode.precision, precision := g.precision.reset }
      else
        { g with state := Mode.brawl, brawl := g.brawl.reset }
    | _ => g
  | Mode.precision =>
    match k with
    | Key.escape => { g with state := Mode.menu }
    | _ => g
  | Mode.brawl =>
    match k with
    | Key.escape => { g with state := Mode.menu }
    | Key.space =>
      { g with brawl := g.brawl.update 0 ⟨false, false, true⟩ rng1 rng2 dodge }
    | _ => g

/-! ### Derived predicates and reachability -/

/-- A press at clipper height `cy` and horizontal position `mx` qualifies
as precise: inside the coarse radius 80 for the combined metric, and
vertical error within the perfection window. -/
def preciseHit (cy mx : ℚ) : Prop :=
  |mx - fade_x| + |cy - targetRow| < 80 ∧ |cy - targetRow| ≤ perfection_window

instance (cy mx : ℚ) : Decidable (preciseHit cy mx) := by
  unfold preciseHit; infer_instance

/-- The specified state invariant of the precision minigame. -/
def PrecisionInv (m : PrecisionCutMode) : Prop :=
  0 ≤ m.time_left ∧ m.time_left ≤ time_limit

/-- The specified state invariant of the brawl minigame: health in
[0, 100], match timer in [0, 99], and `super_active`/`super_full` mutually
exclusive while a super is resolving. -/
def BrawlInv (b : BrawlMode) : Prop :=
  0 ≤ b.left_hp ∧ b.left_hp ≤ 100 ∧ 0 ≤ b.right_hp ∧ b.right_hp ≤ 100 ∧
    0 ≤ b.timer ∧ b.timer ≤ 99 ∧ (b.super_active = true → b.super_full = false)

/-- One recorded frame of inputs to `PrecisionCutMode.update`:
`(dt, mouse position, mouse down, spark randomness)`. -/
def PrecisionFrame := ℚ × (ℚ × ℚ) × Bool × (ℕ → SparkRand)

/-- One recorded frame of inputs to `BrawlMode.update`:
`(dt, input flags, burst randomness ×2, dodge outcome)`. -/
def BrawlFrame := ℚ × Inputs × (ℕ → SparkRand) × (ℕ → SparkRand) × Bool

/-- Fold `PrecisionCutMode.update` over a list of recorded frames. -/
def PrecisionCutMode.runUpdates : PrecisionCutMode → List PrecisionFrame → PrecisionCutMode
  | m, [] => m
  | m, e :: rest => (m.update e.1 e.2.1 e.2.2.1 e.2.2.2).runUpdates rest

/-- Fold `BrawlMode.update` over a list of recorded frames. -/
def BrawlMode.runUpdates : BrawlMode → List BrawlFrame → BrawlMode
  | b, [] => b
  | b, e :: rest => (b.update e.1 e.2.1 e.2.2.1 e.2.2.2.1 e.2.2.2.2).runUpdates rest

/-! ### Field-preservation lemmas, PrecisionCutMode -/

lemma PrecisionCutMode.classifyPress_time_left (m : PrecisionCutMode) (mx : ℚ)
    (md : Bool) (rng : ℕ → SparkRand) :
    (m.classifyPress mx md rng).time_left = m.time_left := by
  unfold PrecisionCutMode.classifyPress
  split
  · split
    · split <;> rfl
    · rfl
  · rfl

lemma PrecisionCutMode.classifyPress_clip_y (m : PrecisionCutMode) (mx : ℚ)
    (md : Bool) (rng : ℕ → SparkRand) :
    (m.classifyPress mx md rng).clip_y = m.clip_y := by
  unfold PrecisionCutMode.classifyPress
  split
  · split
    · split <;> rfl
    · rfl
  · rfl

lemma PrecisionCutMode.textTimerStep_time_left (m : PrecisionCutMode) (dt : ℚ) :
    (m.textTimerStep dt).time_left = m.time_left := by
  unfold PrecisionCutMode.textTimerStep; split <;> rfl

lemma PrecisionCutMode.textTimerStep_sparks (m : PrecisionCutMode) (dt : ℚ) :
    (m.textTimerStep dt).sparks = m.sparks := by
  unfold PrecisionCutMode.textTimerStep; split <;> rfl

lemma PrecisionCutMode.textTimerStep_combo (m : PrecisionCutMode) (dt : ℚ) :
    (m.textTimerStep dt).combo = m.combo := by
  unfold PrecisionCutMode.textTimerStep; split <;> rfl

lemma PrecisionCutMode.textTimerStep_combo_timer (m : PrecisionCutMode) (dt : ℚ) :
    (m.textTimerStep dt).combo_timer = m.combo_timer := by
  unfold PrecisionCutMode.textTimerStep; split <;> rfl

lemma PrecisionCutMode.comboTimerStep_time_left (m : PrecisionCutMode) (dt : ℚ) :
    (m.comboTimerStep dt).time_left = m.time_left := by
  unfold PrecisionCutMode.comboTimerStep; split <;> rfl

lemma PrecisionCutMode.comboTimerStep_sparks (m : PrecisionCutMode) (dt : ℚ) :
    (m.comboTimerStep dt).sparks = m.sparks := by
  unfold PrecisionCutMode.comboTimerStep; split <;> rfl

lemma PrecisionCutMode.timersStep_time_left (m : PrecisionCutMode) (dt : ℚ) :
    (m.timersStep dt).time_left = m.time_left := by
  unfold PrecisionCutMode.timersStep
  rw [PrecisionCutMode.textTimerStep_time_left, PrecisionCutMode.comboTimerStep_time_left]

lemma PrecisionCutMode.timersStep_sparks (m : PrecisionCutMode) (dt : ℚ) :
    (m.timersStep dt).sparks = m.sparks := by
  unfold PrecisionCutMode.timersStep
  rw [PrecisionCutMode.textTimerStep_sparks, PrecisionCutMode.comboTimerStep_sparks]

lemma PrecisionCutMode.timersStep_combo_of_nonpos (m : PrecisionCutMode) (dt : ℚ)
    (h : m.combo_timer ≤ 0) : (m.timersStep dt).combo = 0 := by
  unfold PrecisionCutMode.timersStep
  rw [PrecisionCutMode.textTimerStep_combo]
  unfold PrecisionCutMode.comboTimerStep
  rw [if_neg (not_lt.mpr h)]

lemma PrecisionCutMode.timersStep_combo_of_pos (m : PrecisionCutMode) (dt : ℚ)
    (h : 0 < m.combo_timer) :
    (m.timersStep dt).combo = m.combo ∧
      (m.timersStep dt).combo_timer = m.combo_timer - dt := by
  unfold PrecisionCutMode.timersStep
  rw [PrecisionCutMode.textTimerStep_combo, PrecisionCutMode.textTimerStep_combo_timer]
  unfold PrecisionCutMode.comboTimerStep
  rw [if_pos h]
  exact ⟨rfl, rfl⟩

/-- With no qualifying press, the classification block leaves `combo_timer`
untouched (the only write to it is in the perfect branch). -/
lemma PrecisionCutMode.classifyPress_combo_timer_of_not_precise (m : PrecisionCutMode)
    (mx : ℚ) (md : Bool) (rng : ℕ → SparkRand)
    (h : md = false ∨ ¬ preciseHit m.clip_y mx) :
    (m.classifyPress mx md rng).combo_timer = m.combo_timer := by
  unfold PrecisionCutMode.classifyPress
  rcases h with h | h
  · subst h; rfl
  · split
    · split
      · split
        · next h1 h2 => exact absurd ⟨h1, h2⟩ h
        · rfl
      · rfl
    · rfl

/-- On a qualifying press the classification block takes the perfect
branch. -/
lemma PrecisionCutMode.classifyPress_of_precise (m : PrecisionCutMode)
    (mx : ℚ) (rng : ℕ → SparkRand) (h : preciseHit m.clip_y mx) :
    m.classifyPress mx true rng =
      { m with
        combo := m.combo + 1
        combo_timer := 1.2
        perfect_text_timer := 0.9
        sparks := m.sparks ++ perfectBurst rng m.clip_y } := by
  unfold PrecisionCutMode.classifyPress
  rcases h with ⟨h1, h2⟩
  rw [if_pos h1, if_pos h2, if_pos rfl]

lemma PrecisionCutMode.update_time_left (m : PrecisionCutMode) (dt : ℚ)
    (mouse : ℚ × ℚ) (md : Bool) (rng : ℕ → SparkRand) :
    (m.update dt mouse md rng).time_left = max 0 (m.time_left - dt) := by
  unfold PrecisionCutMode.update PrecisionCutMode.preSpark PrecisionCutMode.sparkStep
  rw [PrecisionCutMode.timersStep_time_left]
  exact PrecisionCutMode.classifyPress_time_left _ _ _ _

/-! ### Field-preservation lemmas, BrawlMode -/

lemma BrawlMode.moveClampStep_timer (b : BrawlMode) (dt : ℚ) (i : Inputs) :
    (b.moveClampStep dt i).timer = b.timer := rfl

lemma BrawlMode.moveClampStep_flags (b : BrawlMode) (dt : ℚ) (i : Inputs) :
    (b.moveClampStep dt i).super_full = b.super_full ∧
      (b.moveClampStep dt i).super_active = b.super_active ∧
      (b.moveClampStep dt i).super_timer = b.super_timer := ⟨rfl, rfl, rfl⟩

lemma BrawlMode.triggerStep_noop_of_flag (b : BrawlMode) (i : Inputs)
    (rng : ℕ → SparkRand) (h : i.super_flag = false) : b.triggerStep i rng = b := by
  unfold BrawlMode.triggerStep
  rw [h]
  simp

lemma BrawlMode.triggerStep_noop_of_not_ready (b : BrawlMode) (i : Inputs)
    (rng : ℕ → SparkRand) (h : b.super_full = false ∨ b.super_active = true) :
    b.triggerStep i rng = b := by
  unfold BrawlMode.triggerStep
  rcases h with h | h <;> rw [h] <;> simp

lemma BrawlMode.triggerStep_right (b : BrawlMode) (i : Inputs) (rng : ℕ → SparkRand) :
    (b.triggerStep i rng).right_x = b.right_x ∧ (b.triggerStep i rng).right_y = b.right_y ∧
      (b.triggerStep i rng).right_hp = b.right_hp ∧
      (b.triggerStep i rng).timer = b.timer ∧
      (b.triggerStep i rng).left_hp = b.left_hp ∧
      (b.triggerStep i rng).left_x = b.left_x := by
  unfold BrawlMode.triggerStep
  split <;> exact ⟨rfl, rfl, rfl, rfl, rfl, rfl⟩

lemma BrawlMode.superStep_inactive (b : BrawlMode) (dt : ℚ) (rng : ℕ → SparkRand)
    (h : b.super_active = false) : b.superStep dt rng = b := by
  unfold BrawlMode.superStep
  rw [h]
  simp

lemma BrawlMode.superStep_resolve (b : BrawlMode) (dt : ℚ) (rng : ℕ → SparkRand)
    (hA : b.super_active = true) (hT : b.super_timer - dt ≤ 0) :
    b.superStep dt rng =
      { b with
        super_timer := b.super_timer - dt
        super_active := false
        right_hp := max 0 (b.right_hp - 28)
        particles := b.particles ++ shockwaveBurst rng b.right_x b.right_y } := by
  unfold BrawlMode.superStep
  rw [hA, if_pos rfl, if_pos hT]

lemma BrawlMode.superStep_tick (b : BrawlMode) (dt : ℚ) (rng : ℕ → SparkRand)
    (hA : b.super_active = true) (hT : ¬ b.super_timer - dt ≤ 0) :
    b.superStep dt rng = { b with super_timer := b.super_timer - dt } := by
  unfold BrawlMode.superStep
  rw [hA, if_pos rfl, if_neg hT]

lemma BrawlMode.superStep_timer (b : BrawlMode) (dt : ℚ) (rng : ℕ → SparkRand) :
    (b.superStep dt rng).timer = b.timer := by
  unfold BrawlMode.superStep
  split
  · split <;> rfl
  · rfl

lemma BrawlMode.superStep_left (b : BrawlMode) (dt : ℚ) (rng : ℕ → SparkRand) :
    (b.superStep dt rng).left_hp = b.left_hp ∧
      (b.superStep dt rng).left_x = b.left_x := by
  unfold BrawlMode.superStep
  split
  · split <;> exact ⟨rfl, rfl⟩
  · exact ⟨rfl, rfl⟩

lemma BrawlMode.superStep_right_hp (b : BrawlMode) (dt : ℚ) (rng : ℕ → SparkRand) :
    (b.superStep dt rng).right_hp = b.right_hp ∨
      (b.superStep dt rng).right_hp = max 0 (b.right_hp - 28) := by
  unfold BrawlMode.superStep
  split
  · split
    · exact Or.inr rfl
    · exact Or.inl rfl
  · exact Or.inl rfl

lemma BrawlMode.superStep_excl (b : BrawlMode) (dt : ℚ) (rng : ℕ → SparkRand)
    (h : b.super_active = true → b.super_full = false) :
    (b.superStep dt rng).super_active = true → (b.superStep dt rng).super_full = false := by
  unfold BrawlMode.superStep
  split
  · next hA =>
    split
    · intro hc; cases hc
    · intro _; exact h hA
  · exact h

lemma BrawlMode.triggerStep_excl (b : BrawlMode) (i : Inputs) (rng : ℕ → SparkRand)
    (h : b.super_active = true → b.super_full = false) :
    (b.triggerStep i rng).super_active = true → (b.triggerStep i rng).super_full = false := by
  unfold BrawlMode.triggerStep
  split
  · intro _; rfl
  · exact h

lemma BrawlMode.particleStep_fields (b : BrawlMode) (dt : ℚ) :
    (b.particleStep dt).timer = b.timer ∧ (b.particleStep dt).left_hp = b.left_hp ∧
      (b.particleStep dt).right_hp = b.right_hp ∧
      (b.particleStep dt).super_full = b.super_full ∧
      (b.particleStep dt).super_active = b.super_active ∧
      (b.particleStep dt).left_x = b.left_x ∧ (b.particleStep dt).right_x = b.right_x :=
  ⟨rfl, rfl, rfl, rfl, rfl, rfl, rfl⟩

lemma BrawlMode.dodgeStep_fields (b : BrawlMode) (dt : ℚ) (d : Bool) :
    (b.dodgeStep dt d).timer = b.timer ∧ (b.dodgeStep dt d).left_hp = b.left_hp ∧
      (b.dodgeStep dt d).right_hp = b.right_hp ∧
      (b.dodgeStep dt d).super_full = b.super_full ∧
      (b.dodgeStep dt d).super_active = b.super_active ∧
      (b.dodgeStep dt d).left_x = b.left_x ∧
      (b.dodgeStep dt d).particles = b.particles := by
  unfold BrawlMode.dodgeStep
  split <;> exact ⟨rfl, rfl, rfl, rfl, rfl, rfl, rfl⟩

lemma BrawlMode.dodgeStep_inactive (b : BrawlMode) (dt : ℚ) (d : Bool)
    (h : b.super_active = false) : b.dodgeStep dt d = b := by
  unfold BrawlMode.dodgeStep
  rw [h]
  simp

lemma BrawlMode.update_timer (b : BrawlMode) (dt : ℚ) (i : Inputs)
    (rng1 rng2 : ℕ → SparkRand) (d : Bool) :
    (b.update dt i rng1 rng2 d).timer = max 0 (b.timer - dt) := by
  unfold BrawlMode.update BrawlMode.preParticle
  rw [(BrawlMode.dodgeStep_fields _ _ _).1, (BrawlMode.particleStep_fields _ _).1,
    BrawlMode.superStep_timer, (BrawlMode.triggerStep_right _ _ _).2.2.2.1,
    BrawlMode.moveClampStep_timer]

/-! ### Claim theorems -/

/-- C6: for every mode state and every `dt ≥ 0` (and any mouse, key and
randomness inputs), the mode timer after `update` equals
`max(0, timer_before - dt)` and is never negative, in both
`PrecisionCutMode` (`time_left`) and `BrawlMode` (match `timer`). -/
theorem timer_floor_at_zero (m : PrecisionCutMode) (b : BrawlMode) (dt : ℚ)
    (mouse : ℚ × ℚ) (md : Bool) (rngp : ℕ → SparkRand) (i : Inputs)
    (rng1 rng2 : ℕ → SparkRand) (d : Bool) (_hdt : 0 ≤ dt) :
    (m.update dt mouse md rngp).time_left = max 0 (m.time_left - dt) ∧
      0 ≤ (m.update dt mouse md rngp).time_left ∧
      (b.update dt i rng1 rng2 d).timer = max 0 (b.timer - dt) ∧
      0 ≤ (b.update dt i rng1 rng2 d).timer := by
  refine ⟨PrecisionCutMode.update_time_left m dt mouse md rngp, ?_,
    BrawlMode.update_timer b dt i rng1 rng2 d, ?_⟩
  · rw [PrecisionCutMode.update_time_left]
    exact le_max_left 0 _
  · rw [BrawlMode.update_timer]
    exact le_max_left 0 _

/-- Witness for C6 at a concrete frame. -/
theorem timer_floor_at_zero_witness :
    (PrecisionCutMode.init.update 1 (0, 0) false (fun _ => ⟨0, 0, 1⟩)).time_left =
        max 0 (PrecisionCutMode.init.time_left - 1) ∧
      0 ≤ (PrecisionCutMode.init.update 1 (0, 0) false (fun _ => ⟨0, 0, 1⟩)).time_left ∧
      (BrawlMode.init.update 1 ⟨false, false, false⟩ (fun _ => ⟨0, 0, 1⟩)
          (fun _ => ⟨0, 0, 1⟩) false).timer = max 0 (BrawlMode.init.timer - 1) ∧
      0 ≤ (BrawlMode.init.update 1 ⟨false, false, false⟩ (fun _ => ⟨0, 0, 1⟩)
          (fun _ => ⟨0, 0, 1⟩) false).timer :=
  timer_floor_at_zero PrecisionCutMode.init BrawlMode.init 1 (0, 0) false
    (fun _ => ⟨0, 0, 1⟩) ⟨false, false, false⟩ (fun _ => ⟨0, 0, 1⟩)
    (fun _ => ⟨0, 0, 1⟩) false (by decide)

/-- C9: in `PrecisionCutMode.update`, if `combo_timer ≤ 0` on entry and no
qualifying (precise) press occurs in the call, the combo is 0 after the
call: the combo resets automatically once `combo_timer` has expired with
no intervening qualifying press. -/
theorem combo_resets_on_timer_expiry (m : PrecisionCutMode) (dt mx my : ℚ)
    (md : Bool) (rng : ℕ → SparkRand) (h1 : m.combo_timer ≤ 0)
    (h2 : md = false ∨ ¬ preciseHit (clampClip my) mx) :
    (m.update dt (mx, my) md rng).combo = 0 := by
  unfold PrecisionCutMode.update
  apply PrecisionCutMode.timersStep_combo_of_nonpos
  show (PrecisionCutMode.classifyPress
      { m with time_left := max 0 (m.time_left - dt), clip_y := clampClip my }
      mx md rng).combo_timer ≤ 0
  rw [PrecisionCutMode.classifyPress_combo_timer_of_not_precise
    { m with time_left := max 0 (m.time_left - dt), clip_y := clampClip my }
    mx md rng h2]
  exact h1

/-- Witness for C9: an expired combo timer with the pointer released. -/
theorem combo_resets_on_timer_expiry_witness :
    (({ PrecisionCutMode.init with combo := 5 } : PrecisionCutMode).update
      (1 / 10) (0, 0) false (fun _ => ⟨0, 0, 1⟩)).combo = 0 :=
  combo_resets_on_timer_expiry { PrecisionCutMode.init with combo := 5 }
    (1 / 10) 0 0 false (fun _ => ⟨0, 0, 1⟩) (by decide) (Or.inl rfl)

/-- C5: a press inside the coarse radius with vertical error within
`perfection_window` increments the combo by exactly 1 and restarts
`combo_timer` to its constant duration 1.2 (then ticked by `dt` in the
same frame); the classification appends exactly the 12-spark perfect
burst. -/
theorem perfect_press_increments_combo (m : PrecisionCutMode) (dt mx my : ℚ)
    (rng : ℕ → SparkRand) (h : preciseHit (clampClip my) mx) :
    (m.update dt (mx, my) true rng).combo = m.combo + 1 ∧
      (m.update dt (mx, my) true rng).combo_timer = 1.2 - dt ∧
      (m.preSpark dt (mx, my) true rng).sparks =
        m.sparks ++ perfectBurst rng (clampClip my) ∧
      (perfectBurst rng (clampClip my)).length = 12 ∧
      (m.update dt (mx, my) true rng).sparks =
        pruneAdvance (m.sparks ++ perfectBurst rng (clampClip my)) dt := by
  have hcp : m.preSpark dt (mx, my) true rng =
      { time_left := max 0 (m.time_left - dt)
        combo := m.combo + 1
        combo_timer := 1.2
        sparks := m.sparks ++ perfectBurst rng (clampClip my)
        perfect_text_timer := 0.9
        clip_y := clampClip my } := by
    unfold PrecisionCutMode.preSpark
    exact PrecisionCutMode.classifyPress_of_precise _ _ _ h
  have hX : ((m.preSpark dt (mx, my) true rng).sparkStep dt).combo_timer = 1.2 := by
    rw [show ((m.preSpark dt (mx, my) true rng).sparkStep dt).combo_timer =
      (m.preSpark dt (mx, my) true rng).combo_timer from rfl, hcp]
  have hpos : (0 : ℚ) < 1.2 := by norm_num
  have hts := PrecisionCutMode.timersStep_combo_of_pos
    ((m.preSpark dt (mx, my) true rng).sparkStep dt) dt (by rw [hX]; exact hpos)
  refine ⟨?_, ?_, ?_, ?_, ?_⟩
  · unfold PrecisionCutMode.update
    rw [hts.1, show ((m.preSpark dt (mx, my) true rng).sparkStep dt).combo =
      (m.preSpark dt (mx, my) true rng).combo from rfl, hcp]
  · unfold PrecisionCutMode.update
    rw [hts.2, hX]
  · rw [hcp]
  · simp [perfectBurst]
  · unfold PrecisionCutMode.update
    rw [PrecisionCutMode.timersStep_sparks,
      show ((m.preSpark dt (mx, my) true rng).sparkStep dt).sparks =
        pruneAdvance (m.preSpark dt (mx, my) true rng).sparks dt from rfl, hcp]

/-- Witness for C5: the spec scenario — `reset()` then
`update(0.1, (target_x, target_y), pressed)` gives combo 1 and 12 sparks. -/
theorem perfect_press_increments_combo_witness :
    ((PrecisionCutMode.init.reset).update 0.1 (fade_x, targetRow) true
        (fun _ => ⟨0, 0, 1 / 2⟩)).combo = 1 ∧
      (((PrecisionCutMode.init.reset).update 0.1 (fade_x, targetRow) true
        (fun _ => ⟨0, 0, 1 / 2⟩)).sparks).length = 12 ∧
      PrecisionCutMode.init.reset.time_left = time_limit :=
  ⟨by
    rw [(perfect_press_increments_combo PrecisionCutMode.init.reset 0.1 fade_x
      targetRow (fun _ => ⟨0, 0, 1 / 2⟩) (by decide)).1]
    decide,
    by decide, by decide⟩

/-- C1 counterexample: a press entirely outside the coarse hit radius
(vertical error 66 > `perfection_window`, combined metric 764 ≥ 80) leaves
an existing combo of 3 untouched both immediately after classification and
after the whole update, so the claim "combo is 0 immediately after every
non-precise press is classified" is false on the code. -/
theorem press_outside_radius_keeps_combo_cex :
    ¬ preciseHit (clampClip 400) 0 ∧
      perfection_window < |clampClip 400 - targetRow| ∧
      ¬ ((({ PrecisionCutMode.init with combo := 3, combo_timer := 1 } :
          PrecisionCutMode).preSpark 0.1 (0, 400) true
          (fun _ => ⟨0, 0, 1⟩)).combo = 0) ∧
      (({ PrecisionCutMode.init with combo := 3, combo_timer := 1 } :
          PrecisionCutMode).preSpark 0.1 (0, 400) true
          (fun _ => ⟨0, 0, 1⟩)).combo = 3 ∧
      (({ PrecisionCutMode.init with combo := 3, combo_timer := 1 } :
          PrecisionCutMode).update 0.1 (0, 400) true
          (fun _ => ⟨0, 0, 1⟩)).combo = 3 := by decide

/-- C1 (amended): a press inside the coarse hit radius whose vertical
error exceeds `perfection_window` resets the combo to 0 at classification;
a press outside the coarse radius is ignored by the classification block
and leaves the combo unchanged there (it is zeroed later in the same
update only if `combo_timer` has already expired). -/
theorem imperfect_press_resets_combo (m : PrecisionCutMode) (mx mx' : ℚ)
    (rng rng' : ℕ → SparkRand) :
    (|mx - fade_x| + |m.clip_y - targetRow| < 80 →
      perfection_window < |m.clip_y - targetRow| →
      (m.classifyPress mx true rng).combo = 0) ∧
    (80 ≤ |mx' - fade_x| + |m.clip_y - targetRow| →
      (m.classifyPress mx' true rng').combo = m.combo) := by
  constructor
  · intro h1 h2
    unfold PrecisionCutMode.classifyPress
    rw [if_pos rfl, if_pos h1, if_neg (not_le.mpr h2)]
  · intro h
    unfold PrecisionCutMode.classifyPress
    rw [if_pos rfl, if_neg (not_lt.mpr h)]

/-- Witness for the amended C1: an in-radius imperfect press zeroes a
combo of 3; an out-of-radius press keeps it at 3. -/
theorem imperfect_press_resets_combo_witness :
    (({ PrecisionCutMode.init with combo := 3, clip_y := 400 } :
        PrecisionCutMode).classifyPress 698 true (fun _ => ⟨0, 0, 1⟩)).combo = 0 ∧
      (({ PrecisionCutMode.init with combo := 3, clip_y := 400 } :
        PrecisionCutMode).classifyPress 0 true (fun _ => ⟨0, 0, 1⟩)).combo = 3 :=
  ⟨(imperfect_press_resets_combo { PrecisionCutMode.init with combo := 3, clip_y := 400 }
      698 0 (fun _ => ⟨0, 0, 1⟩) (fun _ => ⟨0, 0, 1⟩)).1 (by decide) (by decide),
    by
      rw [(imperfect_press_resets_combo
        { PrecisionCutMode.init with combo := 3, clip_y := 400 }
        698 0 (fun _ => ⟨0, 0, 1⟩) (fun _ => ⟨0, 0, 1⟩)).2 (by decide)]⟩

/-- C3: when a super's wind-up expires (`super_active` and
`super_timer - dt ≤ 0`), the super deactivates, the opponent's health
becomes exactly `max(0, hp - 28)` (never negative), and the 40-particle
shockwave burst is spawned anchored at the opponent's (clamped) position
before the frame's particle advance. -/
theorem super_resolution_damage (b : BrawlMode) (dt : ℚ) (i : Inputs)
    (rng1 rng2 : ℕ → SparkRand) (d : Bool)
    (hA : b.super_active = true) (hT : b.super_timer - dt ≤ 0) :
    (b.update dt i rng1 rng2 d).super_active = false ∧
      (b.update dt i rng1 rng2 d).right_hp = max 0 (b.right_hp - 28) ∧
      0 ≤ (b.update dt i rng1 rng2 d).right_hp ∧
      (b.update dt i rng1 rng2 d).particles =
        pruneAdvance (b.particles ++
          shockwaveBurst rng2 (clampRight b.right_x) b.right_y) dt ∧
      (shockwaveBurst rng2 (clampRight b.right_x) b.right_y).length = 40 ∧
      ∀ p ∈ shockwaveBurst rng2 (clampRight b.right_x) b.right_y,
        p.x = clampRight b.right_x - 40 ∧ p.y = b.right_y - 40 := by
  unfold BrawlMode.update BrawlMode.preParticle
  have hmcA : ((({ b with timer := max 0 (b.timer - dt) } : BrawlMode)).moveClampStep
      dt i).super_active = true := hA
  have hmcT : ((({ b with timer := max 0 (b.timer - dt) } : BrawlMode)).moveClampStep
      dt i).super_timer - dt ≤ 0 := hT
  rw [BrawlMode.triggerStep_noop_of_not_ready _ i rng1 (Or.inr hmcA),
    BrawlMode.superStep_resolve _ dt rng2 hmcA hmcT]
  refine ⟨rfl, rfl, le_max_left 0 _, rfl, ?_, ?_⟩
  · simp [shockwaveBurst]
  · intro p hp
    unfold shockwaveBurst at hp
    rcases List.mem_map.mp hp with ⟨j, hj, rfl⟩
    exact ⟨rfl, rfl⟩

/-- Witness for C3: health 20 with damage 28 yields exactly 0, and all 40
shockwave particles (lifetime 1 > dt) survive the same-frame advance. -/
theorem super_resolution_damage_witness :
    (({ BrawlMode.init with super_active := true, super_timer := 0.1, right_hp := 20 } :
        BrawlMode).update (1 / 2) ⟨false, false, false⟩ (fun _ => ⟨0, 0, 1⟩)
        (fun _ => ⟨0, 0, 1⟩) false).super_active = false ∧
      (({ BrawlMode.init with super_active := true, super_timer := 0.1, right_hp := 20 } :
        BrawlMode).update (1 / 2) ⟨false, false, false⟩ (fun _ => ⟨0, 0, 1⟩)
        (fun _ => ⟨0, 0, 1⟩) false).right_hp = 0 ∧
      ((({ BrawlMode.init with super_active := true, super_timer := 0.1, right_hp := 20 } :
        BrawlMode).update (1 / 2) ⟨false, false, false⟩ (fun _ => ⟨0, 0, 1⟩)
        (fun _ => ⟨0, 0, 1⟩) false).particles).length = 40 :=
  ⟨(super_resolution_damage
      { BrawlMode.init with super_active := true, super_timer := 0.1, right_hp := 20 }
      (1 / 2) ⟨false, false, false⟩ (fun _ => ⟨0, 0, 1⟩) (fun _ => ⟨0, 0, 1⟩) false
      rfl (by decide)).1,
    by decide, by decide⟩

/-- C4: the super-trigger input is a no-op whenever the meter is not full
or a super is already active: the whole update result is identical to the
same update with the trigger input cleared (so no flags, no wind-up
change, no particle spawn, and every other field evolves identically). -/
theorem super_trigger_noop (b : BrawlMode) (dt : ℚ) (lm rm : Bool)
    (rng1 rng2 : ℕ → SparkRand) (d : Bool)
    (h : b.super_full = false ∨ b.super_active = true) :
    b.update dt ⟨lm, rm, true⟩ rng1 rng2 d =
      b.update dt ⟨lm, rm, false⟩ rng1 rng2 d := by
  unfold BrawlMode.update BrawlMode.preParticle
  have hmc : ((({ b with timer := max 0 (b.timer - dt) } : BrawlMode)).moveClampStep
        dt ⟨lm, rm, true⟩).super_full = false ∨
      ((({ b with timer := max 0 (b.timer - dt) } : BrawlMode)).moveClampStep
        dt ⟨lm, rm, true⟩).super_active = true := h
  rw [BrawlMode.triggerStep_noop_of_not_ready _ ⟨lm, rm, true⟩ rng1 hmc,
    BrawlMode.triggerStep_noop_of_flag _ ⟨lm, rm, false⟩ rng1
      (show (⟨lm, rm, false⟩ : Inputs).super_flag = false from rfl)]
  exact rfl

/-- Witness for C4: with the meter spent, pressing the super key changes
nothing relative to not pressing it. -/
theorem super_trigger_noop_witness :
    ({ BrawlMode.init with super_full := false } : BrawlMode).update (1 / 10)
        ⟨false, true, true⟩ (fun _ => ⟨0, 0, 1⟩) (fun _ => ⟨0, 0, 1⟩) false =
      ({ BrawlMode.init with super_full := false } : BrawlMode).update (1 / 10)
        ⟨false, true, false⟩ (fun _ => ⟨0, 0, 1⟩) (fun _ => ⟨0, 0, 1⟩) false :=
  super_trigger_noop { BrawlMode.init with super_full := false } (1 / 10) false true
    (fun _ => ⟨0, 0, 1⟩) (fun _ => ⟨0, 0, 1⟩) false (Or.inl rfl)

/-! ### Prune-loop lemmas -/

lemma Spark.advance_life (sp : Spark) (dt : ℚ) : (sp.advance dt).life = sp.life - dt := rfl

lemma pruneAdvance_no_expired (l : List Spark) (dt : ℚ) :
    (pruneAdvance l dt).countP (fun q => decide (q.life ≤ 0)) = 0 := by
  unfold pruneAdvance
  rw [List.countP_eq_zero]
  intro q hq
  rcases List.mem_filter.mp hq with ⟨hmem, hpos⟩
  have h1 : 0 < q.life := of_decide_eq_true hpos
  simpa using not_le.mpr h1

lemma pruneAdvance_length (l : List Spark) (dt : ℚ) :
    (pruneAdvance l dt).length +
      l.countP (fun q => decide ((q.advance dt).life ≤ 0)) = l.length := by
  induction l with
  | nil => rfl
  | cons hd tl ih =>
    unfold pruneAdvance at ih ⊢
    rw [List.map_cons, List.filter_cons, List.countP_cons]
    by_cases hc : (hd.advance dt).life ≤ 0
    · have h2 : (decide (0 < (hd.advance dt).life)) = false :=
        decide_eq_false (not_lt.mpr hc)
      rw [if_neg (by rw [h2]; exact Bool.false_ne_true),
        if_pos (decide_eq_true hc)]
      simp only [List.length_cons]
      omega
    · have h2 : (decide (0 < (hd.advance dt).life)) = true :=
        decide_eq_true (not_le.mp hc)
      rw [if_pos h2, if_neg (by rw [decide_eq_false hc]; exact Bool.false_ne_true)]
      simp only [List.length_cons]
      omega

lemma pruneAdvance_mem_of_live (l : List Spark) (dt : ℚ) (sp : Spark)
    (h : sp ∈ l) (hl : 0 < (sp.advance dt).life) :
    sp.advance dt ∈ pruneAdvance l dt := by
  unfold pruneAdvance
  exact List.mem_filter.mpr ⟨List.mem_map_of_mem _ h, decide_eq_true hl⟩

lemma PrecisionCutMode.update_sparks_eq (m : PrecisionCutMode) (dt : ℚ)
    (mouse : ℚ × ℚ) (md : Bool) (rng : ℕ → SparkRand) :
    (m.update dt mouse md rng).sparks =
      pruneAdvance (m.preSpark dt mouse md rng).sparks dt := by
  unfold PrecisionCutMode.update
  rw [PrecisionCutMode.timersStep_sparks]
  rfl

lemma BrawlMode.update_particles_eq (b : BrawlMode) (dt : ℚ) (i : Inputs)
    (rng1 rng2 : ℕ → SparkRand) (d : Bool) :
    (b.update dt i rng1 rng2 d).particles =
      pruneAdvance (b.preParticle dt i rng1 rng2).particles dt := by
  unfold BrawlMode.update
  rw [(BrawlMode.dodgeStep_fields _ _ _).2.2.2.2.2.2]
  rfl

/-- C7: in both mode updates the spark/particle list after the frame is
exactly the advanced old list with expired entries removed: every survivor
was advanced (life decremented by `dt`), no entry with `life ≤ 0` remains,
the number removed equals the number that expired (each removed exactly
once), and any entry still alive after advancing is still present. -/
theorem spark_prune_exact (m : PrecisionCutMode) (dtp : ℚ) (mouse : ℚ × ℚ)
    (md : Bool) (rng : ℕ → SparkRand) (b : BrawlMode) (dtb : ℚ) (i : Inputs)
    (rng1 rng2 : ℕ → SparkRand) (d : Bool) (sp : Spark)
    (hmem : sp ∈ (m.preSpark dtp mouse md rng).sparks)
    (hlive : 0 < sp.life - dtp) :
    (m.update dtp mouse md rng).sparks =
        pruneAdvance (m.preSpark dtp mouse md rng).sparks dtp ∧
      ((m.update dtp mouse md rng).sparks).countP (fun q => decide (q.life ≤ 0)) = 0 ∧
      ((m.update dtp mouse md rng).sparks).length +
          ((m.preSpark dtp mouse md rng).sparks).countP
            (fun q => decide ((q.advance dtp).life ≤ 0)) =
        ((m.preSpark dtp mouse md rng).sparks).length ∧
      (sp.advance dtp).life = sp.life - dtp ∧
      sp.advance dtp ∈ (m.update dtp mouse md rng).sparks ∧
      (b.update dtb i rng1 rng2 d).particles =
        pruneAdvance (b.preParticle dtb i rng1 rng2).particles dtb ∧
      ((b.update dtb i rng1 rng2 d).particles).countP (fun q => decide (q.life ≤ 0)) = 0 ∧
      ((b.update dtb i rng1 rng2 d).particles).length +
          ((b.preParticle dtb i rng1 rng2).particles).countP
            (fun q => decide ((q.advance dtb).life ≤ 0)) =
        ((b.preParticle dtb i rng1 rng2).particles).length := by
  refine ⟨PrecisionCutMode.update_sparks_eq m dtp mouse md rng, ?_, ?_, rfl, ?_, 
    BrawlMode.update_particles_eq b dtb i rng1 rng2 d, ?_, ?_⟩
  · rw [PrecisionCutMode.update_sparks_eq]
    exact pruneAdvance_no_expired _ _
  · rw [PrecisionCutMode.update_sparks_eq]
    exact pruneAdvance_length _ _
  · rw [PrecisionCutMode.update_sparks_eq]
    exact pruneAdvance_mem_of_live _ _ _ hmem hlive
  · rw [BrawlMode.update_particles_eq]
    exact pruneAdvance_no_expired _ _
  · rw [BrawlMode.update_particles_eq]
    exact pruneAdvance_length _ _

/-- Witness for C7 at a concrete frame holding one live spark each. -/
theorem spark_prune_exact_witness :
    (({ PrecisionCutMode.init with sparks := [⟨0, 0, 0, 0, 1⟩] } :
        PrecisionCutMode).update (1 / 2) (0, 0) false (fun _ => ⟨0, 0, 1⟩)).sparks =
        pruneAdvance (({ PrecisionCutMode.init with sparks := [⟨0, 0, 0, 0, 1⟩] } :
          PrecisionCutMode).preSpark (1 / 2) (0, 0) false (fun _ => ⟨0, 0, 1⟩)).sparks
          (1 / 2) ∧
      ((⟨0, 0, 0, 0, 1⟩ : Spark).advance (1 / 2)).life = (1 : ℚ) - 1 / 2 ∧
      (⟨0, 0, 0, 0, 1⟩ : Spark).advance (1 / 2) ∈
        (({ PrecisionCutMode.init with sparks := [⟨0, 0, 0, 0, 1⟩] } :
          PrecisionCutMode).update (1 / 2) (0, 0) false (fun _ => ⟨0, 0, 1⟩)).sparks :=
  have h := spark_prune_exact
    { PrecisionCutMode.init with sparks := [⟨0, 0, 0, 0, 1⟩] } (1 / 2) (0, 0) false
    (fun _ => ⟨0, 0, 1⟩) BrawlMode.init (1 / 10) ⟨false, false, false⟩
    (fun _ => ⟨0, 0, 1⟩) (fun _ => ⟨0, 0, 1⟩) false ⟨0, 0, 0, 0, 1⟩
    (by decide) (by decide)
  ⟨h.1, h.2.2.2.1, h.2.2.2.2.1⟩

/-! ### Arena-clamp lemmas -/

lemma BrawlMode.superStep_right_x (b : BrawlMode) (dt : ℚ) (rng : ℕ → SparkRand) :
    (b.superStep dt rng).right_x = b.right_x := by
  unfold BrawlMode.superStep
  split
  · split <;> rfl
  · rfl

lemma BrawlMode.preParticle_right_x (b : BrawlMode) (dt : ℚ) (i : Inputs)
    (rng1 rng2 : ℕ → SparkRand) :
    (b.preParticle dt i rng1 rng2).right_x = clampRight b.right_x := by
  unfold BrawlMode.preParticle
  rw [BrawlMode.superStep_right_x, (BrawlMode.triggerStep_right _ _ _).1]
  rfl

lemma BrawlMode.update_left_x (b : BrawlMode) (dt : ℚ) (i : Inputs)
    (rng1 rng2 : ℕ → SparkRand) (d : Bool) :
    (b.update dt i rng1 rng2 d).left_x =
      max 120 (min (WIDTH / 2 - 60) (movedLeft b.left_x dt i)) := by
  unfold BrawlMode.update BrawlMode.preParticle
  rw [(BrawlMode.dodgeStep_fields _ _ _).2.2.2.2.2.1,
    (BrawlMode.particleStep_fields _ _).2.2.2.2.2.1,
    (BrawlMode.superStep_left _ _ _).2, (BrawlMode.triggerStep_right _ _ _).2.2.2.2.2]
  rfl

lemma BrawlMode.update_right_x_cases (b : BrawlMode) (dt : ℚ) (i : Inputs)
    (rng1 rng2 : ℕ → SparkRand) (d : Bool) :
    (b.update dt i rng1 rng2 d).right_x = clampRight b.right_x ∨
      (b.update dt i rng1 rng2 d).right_x = clampRight b.right_x + 100 * dt := by
  have hbase : ((b.preParticle dt i rng1 rng2).particleStep dt).right_x =
      clampRight b.right_x := by
    rw [(BrawlMode.particleStep_fields _ _).2.2.2.2.2.2, BrawlMode.preParticle_right_x]
  unfold BrawlMode.update BrawlMode.dodgeStep
  split
  · right
    show ((b.preParticle dt i rng1 rng2).particleStep dt).right_x + 100 * dt =
      clampRight b.right_x + 100 * dt
    rw [hbase]
  · exact Or.inl hbase

lemma BrawlMode.update_right_x_dodge (b : BrawlMode) (dt : ℚ) (i : Inputs)
    (rng1 rng2 : ℕ → SparkRand) (hA : b.super_active = true)
    (hT : ¬ b.super_timer - dt ≤ 0) :
    (b.update dt i rng1 rng2 true).right_x = clampRight b.right_x + 100 * dt := by
  have hmcA : ((({ b with timer := max 0 (b.timer - dt) } : BrawlMode)).moveClampStep
      dt i).super_active = true := hA
  have hmcT : ¬ ((({ b with timer := max 0 (b.timer - dt) } : BrawlMode)).moveClampStep
      dt i).super_timer - dt ≤ 0 := hT
  have hact : ((b.preParticle dt i rng1 rng2).particleStep dt).super_active = true := by
    rw [(BrawlMode.particleStep_fields _ _).2.2.2.2.1]
    unfold BrawlMode.preParticle
    rw [BrawlMode.triggerStep_noop_of_not_ready _ i rng1 (Or.inr hmcA),
      BrawlMode.superStep_tick _ dt rng2 hmcA hmcT]
    exact hmcA
  have hbase : ((b.preParticle dt i rng1 rng2).particleStep dt).right_x =
      clampRight b.right_x := by
    rw [(BrawlMode.particleStep_fields _ _).2.2.2.2.2.2, BrawlMode.preParticle_right_x]
  unfold BrawlMode.update BrawlMode.dodgeStep
  rw [hact]
  rw [if_pos (by decide : ((true && true) = true))]
  show ((b.preParticle dt i rng1 rng2).particleStep dt).right_x + 100 * dt =
    clampRight b.right_x + 100 * dt
  rw [hbase]

/-- C10: the right fighter's arena clamp is applied before the AI dodge
nudge, so it is not an end-of-update invariant: with the dodge check
succeeding while the super is still active and `dt > 0`, a right fighter
starting at or beyond the bound ends at exactly `(WIDTH - 120) + 100*dt`,
strictly past the bound; the overshoot never exceeds `100*dt`; the left
fighter's x always ends inside `[120, WIDTH/2 - 60]`. -/
theorem dodge_escapes_clamp (b : BrawlMode) (dt : ℚ) (i : Inputs)
    (rng1 rng2 : ℕ → SparkRand) (b2 : BrawlMode) (dt2 : ℚ) (i2 : Inputs)
    (rng3 rng4 : ℕ → SparkRand) (d2 : Bool)
    (hA : b.super_active = true) (hT : ¬ b.super_timer - dt ≤ 0)
    (hR : WIDTH - 120 ≤ b.right_x) (hdt : 0 < dt) (hdt2 : 0 ≤ dt2) :
    (b.update dt i rng1 rng2 true).right_x = (WIDTH - 120) + 100 * dt ∧
      WIDTH - 120 < (b.update dt i rng1 rng2 true).right_x ∧
      (b2.update dt2 i2 rng3 rng4 d2).right_x ≤ (WIDTH - 120) + 100 * dt2 ∧
      120 ≤ (b2.update dt2 i2 rng3 rng4 d2).left_x ∧
      (b2.update dt2 i2 rng3 rng4 d2).left_x ≤ WIDTH / 2 - 60 := by
  have hclamp : clampRight b.right_x = WIDTH - 120 := by
    unfold clampRight
    rw [min_eq_left hR, max_eq_right (by norm_num [WIDTH])]
  have h1 : (b.update dt i rng1 rng2 true).right_x = (WIDTH - 120) + 100 * dt := by
    rw [BrawlMode.update_right_x_dodge b dt i rng1 rng2 hA hT, hclamp]
  have hcr : clampRight b2.right_x ≤ WIDTH - 120 := by
    unfold clampRight
    exact max_le (by norm_num [WIDTH]) (min_le_left _ _)
  refine ⟨h1, ?_, ?_, ?_, ?_⟩
  · rw [h1]
    have : 0 < 100 * dt := by positivity
    linarith
  · rcases BrawlMode.update_right_x_cases b2 dt2 i2 rng3 rng4 d2 with hc | hc
    · rw [hc]
      have : (0 : ℚ) ≤ 100 * dt2 := by positivity
      linarith
    · rw [hc]
      have := add_le_add_right hcr (100 * dt2)
      linarith
  · rw [BrawlMode.update_left_x]
    exact le_max_left _ _
  · rw [BrawlMode.update_left_x]
    exact max_le (by norm_num [WIDTH]) (min_le_left _ _)

/-- Witness for C10 at a concrete frame: the dodge pushes the clamped
right fighter 50 px past the bound (`dt = 1/2`). -/
theorem dodge_escapes_clamp_witness :
    (({ BrawlMode.init with
        super_active := true
        super_full := false
        super_timer := 2
        right_x := 1300 } :
        BrawlMode).update (1 / 2) ⟨false, false, false⟩ (fun _ => ⟨0, 0, 1⟩)
        (fun _ => ⟨0, 0, 1⟩) true).right_x = (WIDTH - 120) + 100 * (1 / 2) ∧
      WIDTH - 120 <
        (({ BrawlMode.init with
          super_active := true
          super_full := false
          super_timer := 2
          right_x := 1300 } :
          BrawlMode).update (1 / 2) ⟨false, false, false⟩ (fun _ => ⟨0, 0, 1⟩)
          (fun _ => ⟨0, 0, 1⟩) true).right_x :=
  have h := dodge_escapes_clamp
    { BrawlMode.init with
      super_active := true
      super_full := false
      super_timer := 2
      right_x := 1300 }
    (1 / 2) ⟨false, false, false⟩ (fun _ => ⟨0, 0, 1⟩) (fun _ => ⟨0, 0, 1⟩)
    BrawlMode.init (1 / 10) ⟨false, false, false⟩ (fun _ => ⟨0, 0, 1⟩)
    (fun _ => ⟨0, 0, 1⟩) false rfl (by decide) (by decide) (by decide) (by decide)
  ⟨h.1, h.2.1⟩

/-! ### Mode-selector claim -/

/-- C8: the selector starts in `MENU`; a key step changes the mode only
via `MENU → PRECISION`/`MENU → BRAWL` on RETURN (with the entered mode
freshly reset, so `time_left = time_limit` on entering precision) or via
`PRECISION → MENU`/`BRAWL → MENU` on ESCAPE; every other key leaves the
mode unchanged. -/
theorem mode_selector_transitions :
    Game.init.state = Mode.menu ∧
      ∀ (g : Game) (k : Key) (rng1 rng2 : ℕ → SparkRand) (d : Bool),
        (g.handleKey k rng1 rng2 d).state = g.state ∨
          (g.state = Mode.menu ∧ k = Key.enter ∧
            ((g.handleKey k rng1 rng2 d).state = Mode.precision ∧
                (g.handleKey k rng1 rng2 d).precision = g.precision.reset ∧
                (g.handleKey k rng1 rng2 d).precision.time_left = time_limit ∨
              (g.handleKey k rng1 rng2 d).state = Mode.brawl ∧
                (g.handleKey k rng1 rng2 d).brawl = g.brawl.reset)) ∨
          ((g.state = Mode.precision ∨ g.state = Mode.brawl) ∧ k = Key.escape ∧
            (g.handleKey k rng1 rng2 d).state = Mode.menu) := by
  refine ⟨rfl, ?_⟩
  intro g k rng1 rng2 d
  rcases g with ⟨st, pr, br, ms⟩
  cases st with
  | menu =>
    cases k with
    | enter =>
      by_cases hms : ms = 0
      · subst hms
        exact Or.inr (Or.inl ⟨rfl, rfl, Or.inl ⟨rfl, rfl, rfl⟩⟩)
      · refine Or.inr (Or.inl ⟨rfl, rfl, Or.inr ⟨?_, ?_⟩⟩)
        · show (if ms = 0 then _ else
            { state := Mode.brawl, precision := pr, brawl := br.reset,
              menu_selected := ms } : Game).state = Mode.brawl
          rw [if_neg hms]
        · show (if ms = 0 then _ else
            { state := Mode.brawl, precision := pr, brawl := br.reset,
              menu_selected := ms } : Game).brawl = br.reset
          rw [if_neg hms]
    | leftKey => exact Or.inl rfl
    | rightKey => exact Or.inl rfl
    | escape => exact Or.inl rfl
    | space => exact Or.inl rfl
    | other => exact Or.inl rfl
  | precision =>
    cases k with
    | escape => exact Or.inr (Or.inr ⟨Or.inl rfl, rfl, rfl⟩)
    | leftKey => exact Or.inl rfl
    | rightKey => exact Or.inl rfl
    | enter => exact Or.inl rfl
    | space => exact Or.inl rfl
    | other => exact Or.inl rfl
  | brawl =>
    cases k with
    | escape => exact Or.inr (Or.inr ⟨Or.inr rfl, rfl, rfl⟩)
    | leftKey => exact Or.inl rfl
    | rightKey => exact Or.inl rfl
    | enter => exact Or.inl rfl
    | space => exact Or.inl rfl
    | other => exact Or.inl rfl

/-! ### Invariant-preservation lemmas -/

lemma BrawlMode.update_left_hp (b : BrawlMode) (dt : ℚ) (i : Inputs)
    (rng1 rng2 : ℕ → SparkRand) (d : Bool) :
    (b.update dt i rng1 rng2 d).left_hp = b.left_hp := by
  unfold BrawlMode.update BrawlMode.preParticle
  rw [(BrawlMode.dodgeStep_fields _ _ _).2.1, (BrawlMode.particleStep_fields _ _).2.1,
    (BrawlMode.superStep_left _ _ _).1, (BrawlMode.triggerStep_right _ _ _).2.2.2.2.1]
  rfl

lemma BrawlMode.update_right_hp_cases (b : BrawlMode) (dt : ℚ) (i : Inputs)
    (rng1 rng2 : ℕ → SparkRand) (d : Bool) :
    (b.update dt i rng1 rng2 d).right_hp = b.right_hp ∨
      (b.update dt i rng1 rng2 d).right_hp = max 0 (b.right_hp - 28) := by
  unfold BrawlMode.update BrawlMode.preParticle
  rw [(BrawlMode.dodgeStep_fields _ _ _).2.2.1, (BrawlMode.particleStep_fields _ _).2.2.1]
  rcases BrawlMode.superStep_right_hp
      (((({ b with timer := max 0 (b.timer - dt) } : BrawlMode)).moveClampStep
        dt i).triggerStep i rng1) dt rng2 with h | h <;>
    rw [h, (BrawlMode.triggerStep_right _ _ _).2.2.1]
  · exact Or.inl rfl
  · exact Or.inr rfl

lemma BrawlMode.update_excl (b : BrawlMode) (dt : ℚ) (i : Inputs)
    (rng1 rng2 : ℕ → SparkRand) (d : Bool)
    (h : b.super_active = true → b.super_full = false) :
    (b.update dt i rng1 rng2 d).super_active = true →
      (b.update dt i rng1 rng2 d).super_full = false := by
  unfold BrawlMode.update
  intro ha
  rw [(BrawlMode.dodgeStep_fields _ _ _).2.2.2.2.1,
    (BrawlMode.particleStep_fields _ _).2.2.2.2.1] at ha
  rw [(BrawlMode.dodgeStep_fields _ _ _).2.2.2.1,
    (BrawlMode.particleStep_fields _ _).2.2.2.1]
  unfold BrawlMode.preParticle at ha ⊢
  exact BrawlMode.superStep_excl _ _ _
    (BrawlMode.triggerStep_excl _ _ _ (fun hmc => h hmc)) ha

lemma precisionInv_update (m : PrecisionCutMode) (dt : ℚ) (mouse : ℚ × ℚ)
    (md : Bool) (rng : ℕ → SparkRand) (h : PrecisionInv m) (hdt : 0 ≤ dt) :
    PrecisionInv (m.update dt mouse md rng) := by
  obtain ⟨h0, h1⟩ := h
  constructor
  · rw [PrecisionCutMode.update_time_left]
    exact le_max_left _ _
  · rw [PrecisionCutMode.update_time_left]
    refine max_le (by norm_num [time_limit]) ?_
    have : m.time_left - dt ≤ m.time_left := by linarith
    linarith

lemma brawlInv_update (b : BrawlMode) (dt : ℚ) (i : Inputs)
    (rng1 rng2 : ℕ → SparkRand) (d : Bool) (h : BrawlInv b) (hdt : 0 ≤ dt) :
    BrawlInv (b.update dt i rng1 rng2 d) := by
  obtain ⟨hl0, hl1, hr0, hr1, ht0, ht1, hx⟩ := h
  refine ⟨?_, ?_, ?_, ?_, ?_, ?_, ?_⟩
  · rw [BrawlMode.update_left_hp]; exact hl0
  · rw [BrawlMode.update_left_hp]; exact hl1
  · rcases BrawlMode.update_right_hp_cases b dt i rng1 rng2 d with hc | hc <;> rw [hc]
    · exact hr0
    · exact le_max_left _ _
  · rcases BrawlMode.update_right_hp_cases b dt i rng1 rng2 d with hc | hc <;> rw [hc]
    · exact hr1
    · exact max_le (by norm_num) (by linarith)
  · rw [BrawlMode.update_timer]; exact le_max_left _ _
  · rw [BrawlMode.update_timer]; exact max_le (by norm_num) (by linarith)
  · exact BrawlMode.update_excl b dt i rng1 rng2 d hx

lemma precisionInv_runUpdates (m : PrecisionCutMode) (l : List PrecisionFrame)
    (h : PrecisionInv m) (hl : ∀ e ∈ l, 0 ≤ e.1) :
    PrecisionInv (m.runUpdates l) := by
  induction l generalizing m with
  | nil => exact h
  | cons e rest ih =>
    exact ih _ (precisionInv_update _ _ _ _ _ h (hl e (List.mem_cons_self e rest)))
      (fun f hf => hl f (List.mem_cons_of_mem _ hf))

lemma brawlInv_runUpdates (b : BrawlMode) (l : List BrawlFrame)
    (h : BrawlInv b) (hl : ∀ e ∈ l, 0 ≤ e.1) :
    BrawlInv (b.runUpdates l) := by
  induction l generalizing b with
  | nil => exact h
  | cons e rest ih =>
    exact ih _ (brawlInv_update _ _ _ _ _ _ h (hl e (List.mem_cons_self e rest)))
      (fun f hf => hl f (List.mem_cons_of_mem _ hf))

/-- C2: from any `reset()` state, any sequence of `update` calls with
`dt ≥ 0` keeps both healths in [0, 100], `time_left` in [0, time_limit],
the brawl timer in [0, 99], and never lets `super_active` and
`super_full` hold together while a super is resolving. -/
theorem reachable_invariant (m : PrecisionCutMode) (b : BrawlMode)
    (lp : List PrecisionFrame) (lb : List BrawlFrame)
    (hp : ∀ e ∈ lp, 0 ≤ e.1) (hb : ∀ e ∈ lb, 0 ≤ e.1) :
    PrecisionInv (PrecisionCutMode.runUpdates m.reset lp) ∧
      BrawlInv (BrawlMode.runUpdates b.reset lb) := by
  constructor
  · refine precisionInv_runUpdates _ _ ⟨?_, ?_⟩ hp
    · show (0 : ℚ) ≤ time_limit
      norm_num [time_limit]
    · show time_limit ≤ time_limit
      exact le_refl _
  · refine brawlInv_runUpdates _ _
      ⟨?_, ?_, ?_, ?_, ?_, ?_, ?_⟩ hb
    · show (0 : ℚ) ≤ 100
      norm_num
    · show (100 : ℚ) ≤ 100
      exact le_refl _
    · show (0 : ℚ) ≤ 100
      norm_num
    · show (100 : ℚ) ≤ 100
      exact le_refl _
    · show (0 : ℚ) ≤ 99
      norm_num
    · show (99 : ℚ) ≤ 99
      exact le_refl _
    · show false = true → _
      intro hc
      exact absurd hc Bool.false_ne_true

/-- Witness for C2: one frame of each mode from freshly reset state. -/
theorem reachable_invariant_witness :
    PrecisionInv (PrecisionCutMode.runUpdates PrecisionCutMode.init.reset
        [(1, (0, 0), false, fun _ => ⟨0, 0, 1⟩)]) ∧
      BrawlInv (BrawlMode.runUpdates BrawlMode.init.reset
        [(1, ⟨false, false, true⟩, fun _ => ⟨0, 0, 1⟩, fun _ => ⟨0, 0, 1⟩, false)]) :=
  reachable_invariant PrecisionCutMode.init BrawlMode.init
    [(1, (0, 0), false, fun _ => ⟨0, 0, 1⟩)]
    [(1, ⟨false, false, true⟩, fun _ => ⟨0, 0, 1⟩, fun _ => ⟨0, 0, 1⟩, false)]
    (by
      intro e he
      rcases List.mem_singleton.mp he with rfl
      norm_num)
    (by
      intro e he
      rcases List.mem_singleton.mp he with rfl
      norm_num)

end BigBarber
